import Mathlib

/-!
Formal model of the sugarcube cooking-measures library (sugarcube.py), with
theorems checking its natural-language specification.

Modelling conventions:
* Python numbers (int/float) are modelled as exact rationals (`ℚ`);
* a raised Python exception is modelled with `Except Err` (or, for the
  mutating `Measure.addUnit`, a `Measure × Option Err` state-passing pair,
  since a raise may leave the receiver in its pre-call state);
* Python object identity for `Measure` objects is modelled by a numeric `id`
  field; the process heap of measures is an `Env` (a list of measures) in
  which ids are resolved, mirroring attribute access through the
  `unit.measure` back-reference;
* every `Converter` the source constructs comes from `Converter.Linear`
  (also via `Constant`/`Neutral`) or the `reverse` property, so converters
  are modelled syntactically by that closure, keeping decidable equality
  (Python compares units with `==`, i.e. object identity).
-/

namespace Sugarcube

/-- Errors raised by the library, mirroring the Python exception classes
raised (directly or indirectly) by sugarcube.py. -/
inductive Err where
  | typeError (msg : String)
  | valueError (msg : String)
  | attributeError (msg : String)
  | zeroDivisionError
deriving DecidableEq, Repr

/-- Converters as the source builds them: `Converter.Linear(factor, constant)`
(with `Constant k = Linear 1 k` and `Neutral = Linear 1`, written below as
defs) and the `reverse` property that swaps the two directions. -/
inductive Converter where
  | Linear (factor constant : ℚ)
  | reverse (c : Converter)
deriving DecidableEq, Repr

/-- interpretation of a converter: `apply true` is `toBase`, `apply false` is
`fromBase`. `Linear a b` has `toBase n = n * a + b` and
`fromBase n = (n - b) / a`; `reverse` swaps the two directions. -/
def Converter.apply : Converter → Bool → ℚ → ℚ
  | .Linear a b, true, n => n * a + b
  | .Linear a b, false, n => (n - b) / a
  | .reverse c, d, n => c.apply (!d) n

/-- conversion of a value to the measure's base unit scale. -/
def Converter.toBase (c : Converter) (n : ℚ) : ℚ := c.apply true n

/-- conversion of a value from the measure's base unit scale. -/
def Converter.fromBase (c : Converter) (n : ℚ) : ℚ := c.apply false n

/-- Converter.Constant(k) is Converter.Linear(1, k). -/
def Converter.Constant (k : ℚ) : Converter := .Linear 1 k

/-- Converter.Neutral is Converter.Linear(1), the identity converter and the
default converter of the Unit constructor. -/
def Converter.Neutral : Converter := .Linear 1 0

/-- Unit of a measure (class Unit). The `measure` back-reference is the owning
measure's id, set by the owning measure when registering (`None` before).
Field defaults mirror the Python constructor's default arguments. -/
structure Unit where
  name : String := "Unknown unit"
  abrev : String := "?unit"
  preFix : Bool := false
  converter : Converter := Converter.Neutral
  measure : Option Nat := none
deriving DecidableEq, Repr

/-- Food or other element (class Element). The source stores arbitrary keyword
properties as attributes; the only property the library itself consults is
`density`, modelled as an optional rational (absent means the attribute is
missing and reading it raises AttributeError). -/
structure Element where
  name : String
  density : Option ℚ := none
deriving DecidableEq, Repr

/-- Amount/quantity of a Unit (class Amount): a value paired with a unit. -/
structure Amount where
  value : ℚ
  unit : Unit
deriving DecidableEq, Repr

/-- An amount of a certain element (class Ingredient). -/
structure Ingredient where
  amount : Amount
  element : Element
deriving DecidableEq, Repr

/-- Cross-measure transform functions. The source registers exactly the two
lambdas of sugarcube.py (Volume→Mass and Mass→Volume); they are modelled
syntactically — keeping registries decidably comparable — and interpreted by
`runTransform` below. -/
inductive TransformFn where
  | volumeToMass
  | massToVolume
deriving DecidableEq, Repr

/-- Category of units (class Measure): a name, the registry of units keyed by
unit name (a Python dict in insertion order), the base unit, and the registry
of transform functions keyed by target measure (identity, i.e. id). -/
structure Measure where
  id : Nat
  name : String
  units : List (String × Unit)
  baseUnit : Unit
  transform_functions : List (Nat × TransformFn)
deriving DecidableEq, Repr

/-- dictionary lookup: Python dict indexing by key equality. -/
def dictLookup {α β : Type} [DecidableEq α] : List (α × β) → α → Option β
  | [], _ => none
  | (k, v) :: rest, k' => if k = k' then some v else dictLookup rest k'

/-- heap of constructed Measure objects, resolved by id. -/
abbrev Env := List Measure

/-- resolution of a measure id against the heap. -/
def Env.find : Env → Nat → Option Measure
  | [], _ => none
  | m :: rest, mid => if m.id = mid then some m else Env.find rest mid

/-- Measure.addUnit in state-passing form: the updated measure paired with
`some e` when the call raises `e`. The duplicate-name ValueError is raised
before any mutation, so the measure comes back unchanged in that case;
otherwise the unit's `measure` back-reference is set (unconditionally
overwritten) to this measure and the unit is stored under its name. The
`setattr` making the unit an attribute is subsumed by the registry. -/
def Measure.addUnit (m : Measure) (u : Unit) : Measure × Option Err :=
  if (dictLookup m.units u.name).isSome then
    (m, some (.valueError (m.name ++ " already contains a unit named " ++ u.name)))
  else
    ({ m with units := m.units ++ [(u.name, { u with measure := some m.id })] }, none)

/-- Measure.__init__: the registry starts empty, `addUnit(baseUnit)` is called
(never a duplicate on an empty registry), which sets the unit's back-reference,
and the same mutated unit object is then stored as `baseUnit`; the transform
registry starts empty. -/
def Measure.create (mid : Nat) (name : String) (baseUnit : Unit) : Measure :=
  { id := mid, name := name,
    units := [(baseUnit.name, { baseUnit with measure := some mid })],
    baseUnit := { baseUnit with measure := some mid },
    transform_functions := [] }

/-- Measure.addUnits: applies addUnit to each unit in order, aborting on the
first raise (units before it stay added). -/
def Measure.addUnits (m : Measure) (us : List Unit) : Measure × Option Err :=
  match us with
  | [] => (m, none)
  | u :: rest =>
    match m.addUnit u with
    | (m', none) => m'.addUnits rest
    | (m', some e) => (m', some e)

/-- Measure.transformTo: the registered transformation function to a different
measure, or a ValueError (with the source's "bewteen" typo) if none. -/
def Measure.transformTo (m : Measure) (target : Measure) : Except Err TransformFn :=
  match dictLookup m.transform_functions target.id with
  | none =>
    Except.error (.valueError ("No transformation known bewteen " ++ m.name ++ " and " ++ target.name))
  | some f => Except.ok f

/-- Measure.addTransform: registers a transformation function to another
measure, silently doing nothing when one is already registered for it. -/
def Measure.addTransform (m : Measure) (toMeasure : Measure) (f : TransformFn) : Measure :=
  if (dictLookup m.transform_functions toMeasure.id).isSome then m
  else { m with transform_functions := m.transform_functions ++ [(toMeasure.id, f)] }

/-- Amount.toBaseUnit: `self.unit.converter.toBase(self.value) * self.unit.measure.baseUnit`
(the multiplication is Unit.__rmul__, producing an Amount). Reading `baseUnit`
through an unset back-reference raises AttributeError; an id missing from the
heap cannot arise in Python and is mapped to the same error. -/
def Amount.toBaseUnit (env : Env) (a : Amount) : Except Err Amount :=
  match a.unit.measure.bind (Env.find env) with
  | none => Except.error (.attributeError "baseUnit")
  | some m => Except.ok ⟨a.unit.converter.toBase a.value, m.baseUnit⟩

/-- Amount.to: identity short-circuit when the units compare equal; a
TypeError when the measures differ (its message reads both measures' names —
through an unset back-reference that read itself raises AttributeError);
otherwise conversion to the base unit (skipped when the unit already is the
base unit), early return when the target equals the base amount's unit, and
otherwise `unit.converter.fromBase` of the base value. -/
def Amount.to (env : Env) (a : Amount) (unit : Unit) : Except Err Amount :=
  if a.unit = unit then Except.ok a
  else if unit.measure ≠ a.unit.measure then
    match a.unit.measure.bind (Env.find env), unit.measure.bind (Env.find env) with
    | some ms, some mt =>
      Except.error (.typeError ("Can't implicitely convert from " ++ ms.name ++ " to " ++ mt.name))
    | _, _ => Except.error (.attributeError "name")
  else
    match a.unit.measure.bind (Env.find env) with
    | none => Except.error (.attributeError "baseUnit")
    | some m =>
      match (if a.unit ≠ m.baseUnit then a.toBaseUnit env else Except.ok a) with
      | Except.error e => Except.error e
      | Except.ok baseAmount =>
        if unit = baseAmount.unit then Except.ok baseAmount
        else Except.ok ⟨unit.converter.fromBase baseAmount.value, unit⟩

/-- Python values an Amount or Unit gets combined with through the arithmetic
dunders: numbers (int/float), Element instances, or any other object, of which
only the type name matters. -/
inductive PyVal where
  | num (q : ℚ)
  | elem (e : Element)
  | obj (tyName : String)
deriving DecidableEq, Repr

/-- result of Amount.__mul__: an Amount for numeric operands, an Ingredient
for Element operands. -/
inductive MulResult where
  | amt (a : Amount)
  | ing (i : Ingredient)
deriving DecidableEq, Repr

/-- message of the TypeError Python actually raises on the fallthrough branch
of Amount.__mul__ / Amount.__truediv__: the source concatenates
`self.unit.measure` — a Measure object (or None), not a string — onto a str,
so building the intended message itself raises TypeError with this message. -/
def concatFailureMsg (a : Amount) : String :=
  "can only concatenate str (not \"" ++
    (if a.unit.measure.isSome then "Measure" else "NoneType") ++ "\") to str"

/-- Amount.__mul__ (and, by delegation, __rmul__): Ingredient constructor for
Element operands, scalar scaling for numbers, and for anything else the
fallthrough raise whose message construction itself fails (see
`concatFailureMsg`). -/
def Amount.mul (a : Amount) (other : PyVal) : Except Err MulResult :=
  match other with
  | .elem e => Except.ok (.ing ⟨a, e⟩)
  | .num q => Except.ok (.amt ⟨a.value * q, a.unit⟩)
  | .obj _ => Except.error (.typeError (concatFailureMsg a))

/-- Amount.__truediv__: scalar division for numbers (ZeroDivisionError on a
zero divisor), and for anything else the fallthrough raise whose message
construction itself fails (see `concatFailureMsg`). -/
def Amount.div (a : Amount) (other : PyVal) : Except Err Amount :=
  match other with
  | .num q => if q = 0 then Except.error .zeroDivisionError else Except.ok ⟨a.value / q, a.unit⟩
  | _ => Except.error (.typeError (concatFailureMsg a))

/-- Unit.__rmul__: an Amount for numeric operands; any other operand falls off
the end of the function, which in Python silently returns None. -/
def Unit.rmul (u : Unit) (other : PyVal) : Option Amount :=
  match other with
  | .num q => some ⟨q, u⟩
  | _ => none

/-- Unit.__mul__ delegates to Unit.__rmul__. -/
def Unit.mul (u : Unit) (other : PyVal) : Option Amount := u.rmul other

/-- prefix table of SIUnitsFromUnit. -/
def siPrefixes : List (String × String × ℚ) :=
  [("milli", "m", 0.001), ("centi", "c", 0.01), ("deci", "d", 0.1),
   ("deca", "da", 10), ("hecto", "h", 100), ("kilo", "k", 1000)]

/-- SIUnitsFromUnit: the common SI-prefixed units derived from a base unit. -/
def SIUnitsFromUnit (u : Unit) : List Unit :=
  siPrefixes.map fun t =>
    { name := t.1 ++ u.name, abrev := t.2.1 ++ u.abrev,
      converter := Converter.Linear t.2.2 0, preFix := u.preFix }

/-- ids standing for the identity of the five catalog Measure objects. -/
def massId : Nat := 0

def volumeId : Nat := 1

def temperatureId : Nat := 2

def lengthId : Nat := 3

def timeId : Nat := 4

/-- Mass = Measure('Mass', Unit('gram', 'g')). -/
def MassA : Measure := Measure.create massId "Mass" { name := "gram", abrev := "g" }

/-- state of Mass after Mass.addUnits(SIUnitsFromUnit(Mass.gram)). -/
def MassB : Measure := (MassA.addUnits (SIUnitsFromUnit MassA.baseUnit)).1

/-- Volume = Measure('Volume', Unit('liter', 'l')). -/
def VolumeA : Measure := Measure.create volumeId "Volume" { name := "liter", abrev := "l" }

/-- state of Volume after Volume.addUnits(SIUnitsFromUnit(Volume.liter)). -/
def VolumeB : Measure := (VolumeA.addUnits (SIUnitsFromUnit VolumeA.baseUnit)).1

/-- Temperature = Measure('Temperature', Unit('celsius', '°C')). -/
def TemperatureA : Measure :=
  Measure.create temperatureId "Temperature" { name := "celsius", abrev := "°C" }

/-- state of Temperature after adding kelvin, fahrenheit and thermostat. -/
def TemperatureB : Measure :=
  (TemperatureA.addUnits
    [ { name := "kelvin", abrev := "°K", converter := Converter.Constant (-273.15) },
      { name := "fahrenheit", abrev := "°F", converter := Converter.reverse (Converter.Linear 1.8 32) },
      { name := "thermostat", abrev := "thermostat", converter := Converter.Linear 30 0, preFix := true } ]).1

/-- Length = Measure('Length', Unit('meter', 'm')) plus its SI units. -/
def LengthA : Measure := Measure.create lengthId "Length" { name := "meter", abrev := "m" }

/-- state of Length after its SI units. -/
def LengthB : Measure := (LengthA.addUnits (SIUnitsFromUnit LengthA.baseUnit)).1

/-- Time = Measure('Time', Unit('second', 's')). -/
def TimeA : Measure := Measure.create timeId "Time" { name := "second", abrev := "s" }

/-- state of Time after adding minute and hour. -/
def TimeB : Measure :=
  (TimeA.addUnits
    [ { name := "minute", abrev := "min", converter := Converter.Linear 60 0 },
      { name := "hour", abrev := "h", converter := Converter.Linear 3600 0 } ]).1

/-- fallback unit for modelling dictionary access that cannot miss. -/
def junkUnit : Unit := {}

/-- module-level binding milliliter = Volume.milliliter. -/
def milliliter : Unit := (dictLookup VolumeB.units "milliliter").getD junkUnit

/-- module-level binding gram = Mass.gram. -/
def gram : Unit := (dictLookup MassB.units "gram").getD junkUnit

/-- state of Volume after Volume.addTransform(Mass, ...). -/
def VolumeC : Measure := VolumeB.addTransform MassB TransformFn.volumeToMass

/-- state of Mass after Mass.addTransform(Volume, ...). -/
def MassC : Measure := MassB.addTransform VolumeB TransformFn.massToVolume

/-- final state of Volume, after the US cooking units. -/
def Volume : Measure :=
  (VolumeC.addUnits
    [ { name := "pinch", abrev := "pinch", converter := Converter.Linear 0.000625 0 },
      { name := "teaspoon", abrev := "tsp.", converter := Converter.Linear 0.005 0 },
      { name := "tablespoon", abrev := "tbsp.", converter := Converter.Linear 0.015 0 },
      { name := "FluidOunce", abrev := "oz", converter := Converter.Linear 0.03 0 },
      { name := "stick", abrev := "stick", converter := Converter.Linear 0.126 0 },
      { name := "cup", abrev := "cup", converter := Converter.Linear 0.240 0 },
      { name := "pint", abrev := "pt.", converter := Converter.Linear 0.47318 0 },
      { name := "quart", abrev := "qt", converter := Converter.Linear 0.94635 0 },
      { name := "gallon", abrev := "gal.", converter := Converter.Linear 3.78541 0 } ]).1

/-- final state of Mass, after Ounce and Pound. -/
def Mass : Measure :=
  (MassC.addUnits
    [ { name := "Ounce", abrev := "oz", converter := Converter.Linear 28.349523125 0 },
      { name := "Pound", abrev := "lb", converter := Converter.Linear 453.59237 0 } ]).1

/-- final state of Temperature. -/
def Temperature : Measure := TemperatureB

/-- final state of Length. -/
def Length : Measure := LengthB

/-- final state of Time. -/
def Time : Measure := TimeB

/-- the heap of the five catalog measures in their final states. -/
def catalogEnv : Env := [Mass, Volume, Temperature, Length, Time]

/-- Flour = Element('Flour', density=0.7). -/
def Flour : Element := { name := "Flour", density := some 0.7 }

/-- Sugar = Element('Sugar', density=1.2). -/
def Sugar : Element := { name := "Sugar", density := some 1.2 }

/-- Salt = Element('Salt', density=1.2). -/
def Salt : Element := { name := "Salt", density := some 1.2 }

/-- Butter = Element('Butter', density=0.9). -/
def Butter : Element := { name := "Butter", density := some 0.9 }

/-- interpretation of the two registered transform lambdas:
Volume→Mass is `(element.density * volume.to(milliliter)).value * gram`,
Mass→Volume is `((mass.to(gram)).value / element.density) * milliliter`.
Evaluation order follows Python: for Volume→Mass the density attribute is read
first; for Mass→Volume the conversion runs first, then the attribute read,
then the division (ZeroDivisionError on a zero density). -/
def runTransform (env : Env) : TransformFn → Amount → Element → Except Err Amount
  | .volumeToMass, volume, element =>
    match element.density with
    | none => Except.error (.attributeError "density")
    | some d =>
      match volume.to env milliliter with
      | Except.error e => Except.error e
      | Except.ok ml => Except.ok ⟨ml.value * d, gram⟩
  | .massToVolume, mass, element =>
    match mass.to env gram with
    | Except.error e => Except.error e
    | Except.ok g =>
      match element.density with
      | none => Except.error (.attributeError "density")
      | some d =>
        if d = 0 then Except.error Err.zeroDivisionError
        else Except.ok ⟨g.value / d, milliliter⟩

/-- Ingredient.to with a Unit argument: the same-measure path delegates to
Amount.to; otherwise Ingredient._transform looks up the source measure's
transform to the target measure, runs it, and converts its result to the
requested unit. -/
def Ingredient.to (env : Env) (i : Ingredient) (u : Unit) : Except Err Ingredient :=
  if u.measure = i.amount.unit.measure then
    match i.amount.to env u with
    | Except.error e => Except.error e
    | Except.ok a => Except.ok ⟨a, i.element⟩
  else
    match i.amount.unit.measure.bind (Env.find env) with
    | none => Except.error (.attributeError "measure")
    | some m =>
      match u.measure.bind (Env.find env) with
      | none => Except.error (.attributeError "measure")
      | some mt =>
        match m.transformTo mt with
        | Except.error e => Except.error e
        | Except.ok fn =>
          match runTransform env fn i.amount i.element with
          | Except.error e => Except.error e
          | Except.ok newAmount =>
            match newAmount.to env u with
            | Except.error e => Except.error e
            | Except.ok a => Except.ok ⟨a, i.element⟩

/-- Ingredient.to with a Measure argument: replaced by the measure's base unit
before dispatch (the isinstance branch of Ingredient.to). -/
def Ingredient.toMeasure (env : Env) (i : Ingredient) (m : Measure) : Except Err Ingredient :=
  i.to env m.baseUnit

/-- the registered liter unit (Volume.liter, Volume's base unit). -/
def liter : Unit := Volume.baseUnit

/-- the registered centiliter unit (Volume.centiliter). -/
def centiliter : Unit := (dictLookup Volume.units "centiliter").getD junkUnit

/-- the registered cup unit (Volume.cup). -/
def cup : Unit := (dictLookup Volume.units "cup").getD junkUnit

/-- the reference-unit invariant of a measure: the base unit is registered in
the unit registry under its own name, and its converter is the identity in
both directions. -/
def MeasureInv (m : Measure) : Prop :=
  dictLookup m.units m.baseUnit.name = some m.baseUnit ∧
  (∀ x : ℚ, m.baseUnit.converter.toBase x = x) ∧
  (∀ x : ℚ, m.baseUnit.converter.fromBase x = x)

/-- measures as the program builds them: constructed by Measure.__init__ from
a unit carrying the Unit constructor's default converter (Converter.Neutral —
as at every Measure construction site in sugarcube.py), then grown by the
mutating operations addUnit, addUnits and addTransform. -/
inductive MeasureReachable : Measure → Prop
  | create (mid : Nat) (name : String) (u : Unit) (h : u.converter = Converter.Neutral) :
      MeasureReachable (Measure.create mid name u)
  | addUnit (m : Measure) (u : Unit) : MeasureReachable m → MeasureReachable (m.addUnit u).1
  | addUnits (m : Measure) (us : List Unit) : MeasureReachable m → MeasureReachable (m.addUnits us).1
  | addTransform (m t : Measure) (f : TransformFn) :
      MeasureReachable m → MeasureReachable (m.addTransform t f)

theorem dictLookup_append_of_some {α β : Type} [DecidableEq α] (l l' : List (α × β)) (k : α)
    (v : β) (h : dictLookup l k = some v) : dictLookup (l ++ l') k = some v := by
  induction l with
  | nil => simp [dictLookup] at h
  | cons p rest ih =>
    obtain ⟨k', v'⟩ := p
    by_cases hk : k' = k
    · simp [dictLookup, hk] at h ⊢
      exact h
    · simp only [List.cons_append, dictLookup, if_neg hk] at h ⊢
      exact ih h

theorem dictLookup_append_new {α β : Type} [DecidableEq α] (l : List (α × β)) (k : α) (v : β)
    (h : dictLookup l k = none) : dictLookup (l ++ [(k, v)]) k = some v := by
  induction l with
  | nil => simp [dictLookup]
  | cons p rest ih =>
    obtain ⟨k', v'⟩ := p
    by_cases hk : k' = k
    · simp [dictLookup, hk] at h
    · simp only [List.cons_append, dictLookup, if_neg hk] at h ⊢
      exact ih h

theorem find_mass : Env.find catalogEnv massId = some Mass := rfl

theorem find_volume : Env.find catalogEnv volumeId = some Volume := rfl

theorem mass_id_eq : Mass.id = massId := rfl

theorem volume_id_eq : Volume.id = volumeId := rfl

theorem mass_name_eq : Mass.name = "Mass" := rfl

theorem volume_name_eq : Volume.name = "Volume" := rfl

theorem massId_ne_volumeId : massId ≠ volumeId := by decide

theorem volumeId_ne_massId : volumeId ≠ massId := by decide

theorem milliliter_eq : milliliter =
    { name := "milliliter", abrev := "ml", preFix := false,
      converter := Converter.Linear 0.001 0, measure := some volumeId } := rfl

theorem gram_eq : gram =
    { name := "gram", abrev := "g", preFix := false,
      converter := Converter.Neutral, measure := some massId } := rfl

theorem liter_eq : liter =
    { name := "liter", abrev := "l", preFix := false,
      converter := Converter.Neutral, measure := some volumeId } := rfl

theorem cup_eq : cup =
    { name := "cup", abrev := "cup", preFix := false,
      converter := Converter.Linear 0.240 0, measure := some volumeId } := rfl

theorem volume_baseUnit_eq : Volume.baseUnit = liter := rfl

theorem mass_baseUnit_eq : Mass.baseUnit = gram := rfl

theorem volume_transform_lookup :
    dictLookup Volume.transform_functions massId = some TransformFn.volumeToMass := rfl

theorem mass_transform_lookup :
    dictLookup Mass.transform_functions volumeId = some TransformFn.massToVolume := rfl

theorem centiliter_eq : centiliter =
    { name := "centiliter", abrev := "cl", preFix := false,
      converter := Converter.Linear 0.01 0, measure := some volumeId } := rfl

theorem measureInv_create (mid : Nat) (name : String) (u : Unit)
    (h : u.converter = Converter.Neutral) : MeasureInv (Measure.create mid name u) := by
  refine ⟨by simp [Measure.create, dictLookup], ?_, ?_⟩ <;> intro x <;>
    simp [Measure.create, h, Converter.Neutral, Converter.toBase, Converter.fromBase,
      Converter.apply]

theorem measureInv_addUnit (m : Measure) (u : Unit) (h : MeasureInv m) :
    MeasureInv (m.addUnit u).1 := by
  obtain ⟨h1, h2, h3⟩ := h
  unfold Measure.addUnit
  by_cases hdup : (dictLookup m.units u.name).isSome
  · simp only [hdup, if_true]
    exact ⟨h1, h2, h3⟩
  · simp only [hdup, if_false]
    exact ⟨dictLookup_append_of_some _ _ _ _ h1, h2, h3⟩

theorem measureInv_addUnits (m : Measure) (us : List Unit) (h : MeasureInv m) :
    MeasureInv (m.addUnits us).1 := by
  induction us generalizing m with
  | nil => exact h
  | cons u rest ih =>
    have hu := measureInv_addUnit m u h
    unfold Measure.addUnits
    rcases hmu : m.addUnit u with ⟨m', e⟩
    rw [hmu] at hu
    cases e with
    | none => exact ih m' hu
    | some err => exact hu

theorem measureInv_addTransform (m t : Measure) (f : TransformFn) (h : MeasureInv m) :
    MeasureInv (m.addTransform t f) := by
  obtain ⟨h1, h2, h3⟩ := h
  unfold Measure.addTransform
  by_cases hc : (dictLookup m.transform_functions t.id).isSome
  · simp only [hc, if_true]
    exact ⟨h1, h2, h3⟩
  · simp only [hc, if_false]
    exact ⟨h1, h2, h3⟩

/-- C6: for every measure the program can build — constructed by
Measure.__init__ from a unit with the Unit constructor's default converter, as
at every construction site in the source, then grown by addUnit / addUnits /
addTransform — the reference (base) unit is registered in the unit registry
under its own name, and its converter is the identity in both directions. -/
theorem measure_reference_unit_invariant (m : Measure) (h : MeasureReachable m) :
    MeasureInv m := by
  induction h with
  | create mid name u hu => exact measureInv_create mid name u hu
  | addUnit m u _ ih => exact measureInv_addUnit m u ih
  | addUnits m us _ ih => exact measureInv_addUnits m us ih
  | addTransform m t f _ ih => exact measureInv_addTransform m t f ih

/-- witness for C6 at the catalog Mass measure, whose construction chain
(create, SI units, transform registration, US units) is replayed through the
reachability constructors. -/
theorem measure_reference_unit_invariant_witness : MeasureInv Mass :=
  measure_reference_unit_invariant Mass
    (MeasureReachable.addUnits MassC _
      (MeasureReachable.addTransform MassB VolumeB TransformFn.massToVolume
        (MeasureReachable.addUnits MassA _
          (MeasureReachable.create massId "Mass" _ rfl))))

/-- C1: converting an Amount to a different unit of the same measure goes
through the measure's base (reference) unit: the result carries the target
unit and the value `unit.converter.fromBase (self.unit.converter.toBase v)`,
where the first hop is skipped exactly when the source unit is the base unit
and the second hop is skipped exactly when the target is the base unit; units
are never converted into each other directly. -/
theorem amount_to_two_hop (env : Env) (a : Amount) (u : Unit) (mid : Nat) (m : Measure)
    (hne : a.unit ≠ u) (h1 : a.unit.measure = some mid) (h2 : u.measure = some mid)
    (henv : Env.find env mid = some m) :
    Amount.to env a u =
      Except.ok ⟨(if u = m.baseUnit
                  then (if a.unit = m.baseUnit then a.value else a.unit.converter.toBase a.value)
                  else u.converter.fromBase
                    (if a.unit = m.baseUnit then a.value else a.unit.converter.toBase a.value)),
                 u⟩ := by
  have hbind : a.unit.measure.bind (Env.find env) = some m := by rw [h1]; simpa using henv
  have hmm : ¬ (u.measure ≠ a.unit.measure) := by rw [h1, h2]; simp
  unfold Amount.to Amount.toBaseUnit
  rw [if_neg hne, if_neg hmm]
  simp only [hbind]
  by_cases hb : a.unit = m.baseUnit
  · have h3 : ¬ (a.unit ≠ m.baseUnit) := by simpa using hb
    rw [if_neg h3]
    have hu2 : ¬ (u = a.unit) := fun hc => hne hc.symm
    have hub : ¬ (u = m.baseUnit) := fun hc => hne (by rw [hb, hc])
    simp only [hu2, if_false, hub, ite_false, hb, ite_true]
  · have hb' : a.unit ≠ m.baseUnit := hb
    rw [if_pos hb']
    simp only [hbind]
    by_cases hub : u = m.baseUnit
    · subst hub
      simp only [hb, ite_false, ite_true]
    · simp only [hb, hub, ite_false]

/-- witness for C1: 2 liter to centiliter under the catalog is 200 centiliter,
via the skipped first hop (liter is the base unit) and the centiliter
fromBase hop. -/
theorem amount_to_two_hop_witness :
    ((⟨2, liter⟩ : Amount).unit ≠ centiliter) ∧
    ((⟨2, liter⟩ : Amount).unit.measure = some volumeId) ∧
    (centiliter.measure = some volumeId) ∧
    (Env.find catalogEnv volumeId = some Volume) ∧
    Amount.to catalogEnv ⟨2, liter⟩ centiliter = Except.ok ⟨200, centiliter⟩ :=
  ⟨by decide, rfl, rfl, find_volume,
    (amount_to_two_hop catalogEnv ⟨2, liter⟩ centiliter volumeId Volume (by decide) rfl rfl
        find_volume).trans
      (by norm_num [centiliter_eq, liter_eq, volume_baseUnit_eq, Converter.fromBase,
        Converter.toBase, Converter.apply, Converter.Neutral])⟩

/-- C3: converting a bare Amount to a unit of a different measure fails with
the TypeError "Can't implicitely convert from ... to ..." (the spec's
MeasureMismatchError) and produces no value. -/
theorem amount_to_measure_mismatch (env : Env) (a : Amount) (u : Unit) (mi mj : Nat)
    (Mi Mj : Measure) (h1 : a.unit.measure = some mi) (h2 : u.measure = some mj)
    (hne : mi ≠ mj) (hfi : Env.find env mi = some Mi) (hfj : Env.find env mj = some Mj) :
    Amount.to env a u =
      Except.error
        (Err.typeError ("Can't implicitely convert from " ++ Mi.name ++ " to " ++ Mj.name)) := by
  have hau : a.unit ≠ u := by
    intro hc
    rw [hc, h2] at h1
    exact hne (Option.some.inj h1.symm)
  have hmm : u.measure ≠ a.unit.measure := by
    rw [h1, h2]
    intro hc
    exact hne (Option.some.inj hc).symm
  unfold Amount.to
  rw [if_neg hau, if_pos hmm, h1, h2]
  simp [hfi, hfj]

/-- witness for C3: Quantity(1, Volume.liter).to(Mass.gram) fails with the
measure-mismatch TypeError. -/
theorem amount_to_measure_mismatch_witness :
    ((⟨1, liter⟩ : Amount).unit.measure = some volumeId) ∧
    (gram.measure = some massId) ∧ volumeId ≠ massId ∧
    Amount.to catalogEnv ⟨1, liter⟩ gram =
      Except.error (Err.typeError "Can't implicitely convert from Volume to Mass") :=
  ⟨rfl, rfl, by decide,
    (amount_to_measure_mismatch catalogEnv ⟨1, liter⟩ gram volumeId massId Volume Mass rfl rfl
        (by decide) find_volume find_mass).trans rfl⟩

/-- identity short-circuit of Amount.to: converting to a unit that compares
equal to the amount's own unit returns the amount itself. -/
theorem amount_to_self (env : Env) (a : Amount) (u : Unit) (h : a.unit = u) :
    Amount.to env a u = Except.ok a := by
  unfold Amount.to
  rw [if_pos h]

/-- evaluation of Amount.to from any catalog-registered Volume unit into the
milliliter unit: the value always comes out as toBase of the value times 1000
(the milliliter fromBase hop), whichever branch of the two-hop path runs. -/
theorem amount_to_milliliter (v : ℚ) (u : Unit) (hm : u.measure = some volumeId) :
    Amount.to catalogEnv ⟨v, u⟩ milliliter =
      Except.ok ⟨u.converter.toBase v * 1000, milliliter⟩ := by
  by_cases h1 : u = milliliter
  · subst h1
    rw [amount_to_self catalogEnv ⟨v, milliliter⟩ milliliter rfl]
    simp only [Except.ok.injEq, Amount.mk.injEq, and_true]
    simp only [milliliter_eq, Converter.toBase, Converter.apply]
    ring
  · have hbind : (Amount.mk v u).unit.measure.bind (Env.find catalogEnv) = some Volume := by
      simp only [hm]
      simpa using find_volume
    have hmm2 : ¬ (milliliter.measure ≠ (Amount.mk v u).unit.measure) := by
      simp [milliliter_eq, hm]
    unfold Amount.to Amount.toBaseUnit
    rw [if_neg h1, if_neg hmm2]
    simp only [hbind]
    by_cases h2 : u = Volume.baseUnit
    · have h3 : ¬ ((Amount.mk v u).unit ≠ Volume.baseUnit) := by simpa using h2
      have h4 : ¬ (milliliter = (Amount.mk v u).unit) := fun hc => h1 hc.symm
      simp only [if_neg h3, if_neg h4]
      subst h2
      simp only [Except.ok.injEq, Amount.mk.injEq, and_true]
      simp only [milliliter_eq, volume_baseUnit_eq, liter_eq, Converter.toBase,
        Converter.fromBase, Converter.apply, Converter.Neutral]
      ring
    · have h2' : (Amount.mk v u).unit ≠ Volume.baseUnit := h2
      have h5 : ¬ (milliliter = Volume.baseUnit) := by decide
      simp only [if_pos h2', hbind, if_neg h5]
      simp only [Except.ok.injEq, Amount.mk.injEq, and_true]
      simp only [milliliter_eq, Converter.toBase, Converter.fromBase, Converter.apply]
      ring

/-- evaluation of Amount.to from the milliliter unit into any Volume unit:
the value always comes out as fromBase of the value times 0.001 (the
milliliter toBase hop), whichever branch of the two-hop path runs. -/
theorem amount_from_milliliter (w : ℚ) (u : Unit) (hm : u.measure = some volumeId) :
    Amount.to catalogEnv ⟨w, milliliter⟩ u =
      Except.ok ⟨u.converter.fromBase (w * 0.001), u⟩ := by
  by_cases h1 : u = milliliter
  · subst h1
    rw [amount_to_self catalogEnv ⟨w, milliliter⟩ milliliter rfl]
    simp only [Except.ok.injEq, Amount.mk.injEq, and_true]
    norm_num [milliliter_eq, Converter.fromBase, Converter.apply]
  · have hbind : (Amount.mk w milliliter).unit.measure.bind (Env.find catalogEnv) = some Volume := by
      simp only [milliliter_eq]
      simpa using find_volume
    have hmm2 : ¬ (u.measure ≠ (Amount.mk w milliliter).unit.measure) := by
      simp [milliliter_eq, hm]
    have h1' : (Amount.mk w milliliter).unit ≠ u := fun hc => h1 hc.symm
    unfold Amount.to Amount.toBaseUnit
    rw [if_neg h1', if_neg hmm2]
    simp only [hbind]
    have h6' : milliliter ≠ Volume.baseUnit := by decide
    have h6 : (Amount.mk w milliliter).unit ≠ Volume.baseUnit := h6'
    simp only [if_pos h6, hbind]
    by_cases h2 : u = Volume.baseUnit
    · simp only [if_pos h2]
      subst h2
      simp only [Except.ok.injEq, Amount.mk.injEq, and_true]
      norm_num [milliliter_eq, volume_baseUnit_eq, liter_eq, Converter.toBase,
        Converter.fromBase, Converter.apply, Converter.Neutral]
    · simp only [if_neg h2]
      simp only [Except.ok.injEq, Amount.mk.injEq, and_true]
      norm_num [milliliter_eq, Converter.toBase, Converter.apply]

/-- C2: an Ingredient carrying a volume quantity (any unit registered to the
Volume measure whose converter round-trips) and a substance of positive
density, converted to Mass and back to the original volume unit, comes back
exactly equal to the original over the rationals. -/
theorem ingredient_volume_mass_roundtrip (v d : ℚ) (u : Unit) (ename : String)
    (hm : u.measure = some volumeId)
    (hinv : ∀ x : ℚ, u.converter.fromBase (u.converter.toBase x) = x)
    (hd : 0 < d) :
    (Ingredient.toMeasure catalogEnv ⟨⟨v, u⟩, ⟨ename, some d⟩⟩ Mass).bind
        (fun i => Ingredient.to catalogEnv i u) =
      Except.ok ⟨⟨v, u⟩, ⟨ename, some d⟩⟩ := by
  have hd0 : d ≠ 0 := ne_of_gt hd
  have e1 : Ingredient.toMeasure catalogEnv ⟨⟨v, u⟩, ⟨ename, some d⟩⟩ Mass =
      Except.ok ⟨⟨u.converter.toBase v * 1000 * d, gram⟩, ⟨ename, some d⟩⟩ := by
    unfold Ingredient.toMeasure Ingredient.to
    have c1 : ¬ (Mass.baseUnit.measure =
        (Ingredient.mk ⟨v, u⟩ ⟨ename, some d⟩).amount.unit.measure) := by
      simp [mass_baseUnit_eq, gram_eq, hm, massId_ne_volumeId]
    rw [if_neg c1]
    have b1 : (Ingredient.mk ⟨v, u⟩ ⟨ename, some d⟩).amount.unit.measure.bind
        (Env.find catalogEnv) = some Volume := by
      simp only [hm]
      simpa using find_volume
    have b2 : Mass.baseUnit.measure.bind (Env.find catalogEnv) = some Mass := by
      simp only [mass_baseUnit_eq, gram_eq]
      simpa using find_mass
    have t1 : Volume.transformTo Mass = Except.ok TransformFn.volumeToMass := rfl
    simp only [b1, b2, t1]
    unfold runTransform
    simp only [amount_to_milliliter v u hm]
    simp only [amount_to_self catalogEnv ⟨u.converter.toBase v * 1000 * d, gram⟩
      Mass.baseUnit mass_baseUnit_eq.symm]
  have e2 : Ingredient.to catalogEnv ⟨⟨u.converter.toBase v * 1000 * d, gram⟩,
      ⟨ename, some d⟩⟩ u = Except.ok ⟨⟨v, u⟩, ⟨ename, some d⟩⟩ := by
    unfold Ingredient.to
    have c2 : ¬ (u.measure = (Ingredient.mk ⟨u.converter.toBase v * 1000 * d, gram⟩
        ⟨ename, some d⟩).amount.unit.measure) := by
      simp [gram_eq, hm, volumeId_ne_massId]
    rw [if_neg c2]
    have b3 : (Ingredient.mk ⟨u.converter.toBase v * 1000 * d, gram⟩
        ⟨ename, some d⟩).amount.unit.measure.bind (Env.find catalogEnv) = some Mass := by
      simp only [gram_eq]
      simpa using find_mass
    have b4 : u.measure.bind (Env.find catalogEnv) = some Volume := by
      simp only [hm]
      simpa using find_volume
    have t2 : Mass.transformTo Volume = Except.ok TransformFn.massToVolume := rfl
    simp only [b3, b4, t2]
    unfold runTransform
    simp only [amount_to_self catalogEnv ⟨u.converter.toBase v * 1000 * d, gram⟩ gram rfl]
    simp only [if_neg hd0]
    simp only [amount_from_milliliter (u.converter.toBase v * 1000 * d / d) u hm]
    have harg : u.converter.toBase v * 1000 * d / d * 0.001 = u.converter.toBase v := by
      field_simp
      ring
    rw [harg, hinv v]
  rw [e1]
  exact e2

/-- witness for C2: 2 cups of Flour (density 0.7) to Mass and back to cup is
again exactly 2 cups. -/
theorem ingredient_volume_mass_roundtrip_witness :
    (cup.measure = some volumeId) ∧
    (∀ x : ℚ, cup.converter.fromBase (cup.converter.toBase x) = x) ∧
    (0 < (0.7 : ℚ)) ∧
    (Ingredient.toMeasure catalogEnv ⟨⟨2, cup⟩, ⟨"Flour", some 0.7⟩⟩ Mass).bind
        (fun i => Ingredient.to catalogEnv i cup) =
      Except.ok ⟨⟨2, cup⟩, ⟨"Flour", some 0.7⟩⟩ :=
  ⟨rfl,
    fun x => by
      simp only [cup_eq, Converter.toBase, Converter.fromBase, Converter.apply]
      ring,
    by norm_num,
    ingredient_volume_mass_roundtrip 2 0.7 cup "Flour" rfl
      (fun x => by
        simp only [cup_eq, Converter.toBase, Converter.fromBase, Converter.apply]
        ring)
      (by norm_num)⟩

/-- C5: adding a unit whose name is already registered in the measure raises
ValueError (the spec's DuplicateUnitError) and leaves the measure — its unit
registry included, so unit count and name-to-unit mapping — exactly as it
was before the call. -/
theorem addUnit_duplicate_name (m : Measure) (u w : Unit)
    (h : dictLookup m.units u.name = some w) :
    m.addUnit u =
      (m, some (Err.valueError (m.name ++ " already contains a unit named " ++ u.name))) := by
  unfold Measure.addUnit
  simp [h]

/-- witness for C5: the catalog Mass measure already has a unit named "gram",
so adding a fresh unit of that name fails and leaves Mass unchanged. -/
theorem addUnit_duplicate_name_witness :
    dictLookup Mass.units "gram" = some gram ∧
    Mass.addUnit { name := "gram", abrev := "g2" } =
      (Mass, some (Err.valueError "Mass already contains a unit named gram")) :=
  ⟨rfl,
    (addUnit_duplicate_name Mass { name := "gram", abrev := "g2" } gram rfl).trans rfl⟩

/-- C7 counterexample: gram is already registered in Mass (its back-reference
is Mass), yet Volume.addUnit(gram) raises no error — the call succeeds and
re-points the unit's measure back-reference to Volume. -/
theorem addUnit_cross_measure_counterexample :
    gram.measure = some massId ∧
    (Volume.addUnit gram).2 = none ∧
    dictLookup (Volume.addUnit gram).1.units "gram" =
      some { gram with measure := some volumeId } :=
  ⟨rfl, rfl, rfl⟩

/-- C7 amended: addUnit checks only for a name collision inside the receiving
measure; a unit whose name is new there is accepted — even if it is already
registered in another measure — and its measure back-reference is (re-)set to
the receiving measure on every successful registration. -/
theorem addUnit_rebinds_backreference (m : Measure) (u : Unit)
    (h : dictLookup m.units u.name = none) :
    (m.addUnit u).2 = none ∧
    dictLookup (m.addUnit u).1.units u.name = some { u with measure := some m.id } := by
  unfold Measure.addUnit
  rw [h]
  refine ⟨by simp, ?_⟩
  simpa using dictLookup_append_new m.units u.name { u with measure := some m.id } h

/-- witness for the amended C7 at Volume and the Mass-registered gram unit. -/
theorem addUnit_rebinds_backreference_witness :
    dictLookup Volume.units gram.name = none ∧
    ((Volume.addUnit gram).2 = none ∧
      dictLookup (Volume.addUnit gram).1.units gram.name =
        some { gram with measure := some Volume.id }) :=
  ⟨rfl, addUnit_rebinds_backreference Volume gram rfl⟩

/-- C8: when a transform for the ordered (source, target) measure pair is
already registered, addTransform for that pair is a no-op — the measure, its
transform registry included, is unchanged, and transformTo still returns the
originally registered function. -/
theorem addTransform_already_registered_noop (m t : Measure) (f g : TransformFn)
    (h : dictLookup m.transform_functions t.id = some f) :
    m.addTransform t g = m ∧ (m.addTransform t g).transformTo t = Except.ok f := by
  have h1 : m.addTransform t g = m := by
    unfold Measure.addTransform
    simp [h]
  refine ⟨h1, ?_⟩
  rw [h1]
  unfold Measure.transformTo
  simp [h]

/-- witness for C8 at the registered Volume → Mass transform, attempting to
re-register the other transform function for the same pair. -/
theorem addTransform_already_registered_noop_witness :
    dictLookup Volume.transform_functions Mass.id = some TransformFn.volumeToMass ∧
    (Volume.addTransform Mass TransformFn.massToVolume = Volume ∧
      (Volume.addTransform Mass TransformFn.massToVolume).transformTo Mass =
        Except.ok TransformFn.volumeToMass) :=
  ⟨rfl,
    addTransform_already_registered_noop Volume Mass TransformFn.volumeToMass
      TransformFn.massToVolume rfl⟩

/-- C9: Amount.__mul__ and Amount.__truediv__ with an operand that is neither
a number nor an Element (here a list) do raise a TypeError, but its message is
the string-concatenation failure — the offending operand's type is not named,
because the source concatenates the Measure object itself (instead of its
name) while building the intended message. -/
theorem mul_invalid_operand_message :
    Amount.mul ⟨1, gram⟩ (PyVal.obj "list") =
      Except.error (Err.typeError "can only concatenate str (not \"Measure\") to str") ∧
    Amount.div ⟨1, gram⟩ (PyVal.obj "list") =
      Except.error (Err.typeError "can only concatenate str (not \"Measure\") to str") :=
  ⟨rfl, rfl⟩

/-- C10: multiplying a Unit by a non-numeric operand, on either side, neither
raises nor produces an Amount: Unit.__rmul__ (to which Unit.__mul__ delegates)
falls through its isinstance check and silently returns None. -/
theorem unit_mul_non_number_returns_none (u : Unit) (v : PyVal)
    (h : ∀ q : ℚ, v ≠ PyVal.num q) :
    u.mul v = none ∧ u.rmul v = none := by
  cases v with
  | num q => exact absurd rfl (h q)
  | elem e => exact ⟨rfl, rfl⟩
  | obj s => exact ⟨rfl, rfl⟩

/-- witness for C10: "abc" * Volume.liter evaluates to None. -/
theorem unit_mul_non_number_returns_none_witness :
    (∀ q : ℚ, PyVal.obj "str" ≠ PyVal.num q) ∧
    (liter.mul (PyVal.obj "str") = none ∧ liter.rmul (PyVal.obj "str") = none) :=
  ⟨fun _ h => PyVal.noConfusion h,
    unit_mul_non_number_returns_none liter (PyVal.obj "str") (fun _ h => PyVal.noConfusion h)⟩

/-- C4: under the standard catalog (cup factor 0.240, milliliter factor 0.001,
Flour density 0.7), converting the Ingredient 1 cup of Flour to Mass.gram
yields the mass quantity 168 gram, exactly over the rationals: the transform
converts 1 cup to 240 milliliters and multiplies by the density 0.7. -/
theorem one_cup_flour_to_gram :
    Ingredient.to catalogEnv ⟨⟨1, cup⟩, Flour⟩ gram = Except.ok ⟨⟨168, gram⟩, Flour⟩ := by
  norm_num [Ingredient.to, Amount.to, Amount.toBaseUnit, runTransform, Measure.transformTo,
    cup_eq, gram_eq, milliliter_eq, liter_eq, find_volume, find_mass, volume_baseUnit_eq,
    mass_baseUnit_eq, volume_transform_lookup, mass_transform_lookup, mass_id_eq,
    volume_id_eq, mass_name_eq, volume_name_eq, massId_ne_volumeId, volumeId_ne_massId,
    Flour, Converter.toBase, Converter.fromBase, Converter.apply, Converter.Neutral]

end Sugarcube
